import Mathlib

/-!
Verification of the JARVIS calendar/event-scheduling engine
(`src/modules/calendar_module.py`) against its natural-language
specification.

Shallow embedding conventions:

* Python `datetime` values are naive local timestamps; they are modelled as
  `Int` counts of seconds since 0001-01-01 00:00:00 (proleptic Gregorian).
  Under this encoding `t.date()` has Python ordinal `t / 86400 + 1`
  (`date.toordinal` gives 1 for 0001-01-01), `datetime.combine(d, time(h))`
  is `(ord d - 1) * 86400 + h * 3600`, `timedelta` arithmetic is `Int`
  addition and subtraction, and datetime comparison is `Int` order.
* The module's mutable state is `CalendarState`: the in-memory list
  `events` plus the JSON file mirror `disk`.  `_save_events` swallows any
  write exception, so a save is modelled by a boolean `saveOk` input: on
  success the mirror becomes the in-memory list, on failure it is left
  unchanged and control returns normally (the `except` branch only logs).
* `uuid.uuid4()` is nondeterministic; the generated id (`str(uuid4())[:8]`)
  is passed in as the `genId` argument.  Likewise `datetime.now()` is
  passed in as `now`.
* Keyword arguments of `update_event` become `UpdateFields`, a record of
  `Option` fields; `none` means "key absent".  Keys that are not event
  attributes fail the `hasattr` test and do nothing, which the record
  encoding captures by leaving them unrepresented.
-/

namespace Jarvis

/-- One calendar event, mirroring the `CalendarEvent` dataclass.
Timestamps (`start_time`, `end_time`, `created_at`) are seconds since
0001-01-01 00:00 local time. -/
structure CalendarEvent where
  id : String
  title : String
  description : String
  start_time : Int
  end_time : Int
  location : String
  attendees : List String
  reminder_minutes : Int
  is_all_day : Bool
  recurrence : String
  created_at : Int
deriving DecidableEq, Repr

/-- The module's state: the in-memory `self.events` list and the contents
of the JSON data file (`disk`), as a list of events (the file stores their
serialized dictionaries; claim C7 treats serialization itself). -/
structure CalendarState where
  events : List CalendarEvent
  disk : List CalendarEvent
deriving DecidableEq, Repr

/-- `_save_events`: dump all events to the JSON file.  The file write can
raise; the `except` branch catches everything and only logs, so the caller
continues normally either way.  `saveOk = true` models a successful write
(the disk mirror now equals memory), `saveOk = false` a failed one (the
disk mirror is unchanged). -/
def saveEvents (s : CalendarState) (saveOk : Bool) : CalendarState :=
  if saveOk then { s with disk := s.events } else s

/-- `create_event`: builds a `CalendarEvent` from the arguments (the
dataclass `__post_init__` replaces `attendees or []` and sets
`created_at = datetime.now()`), appends it to `self.events`, calls
`_save_events`, and returns the event id.  There is no validation of any
argument.  `genId` is the value of `self._generate_event_id()` and `now`
the value of `datetime.now()`. -/
def createEvent (s : CalendarState) (saveOk : Bool) (genId : String) (now : Int)
    (title : String) (start_time end_time : Int) (description location : String)
    (attendees : Option (List String)) (reminder_minutes : Int)
    (is_all_day : Bool) (recurrence : String) : CalendarState × String :=
  let event : CalendarEvent :=
    { id := genId, title := title, description := description,
      start_time := start_time, end_time := end_time, location := location,
      attendees := attendees.getD [], reminder_minutes := reminder_minutes,
      is_all_day := is_all_day, recurrence := recurrence, created_at := now }
  (saveEvents { s with events := s.events ++ [event] } saveOk, genId)

/-- `get_event`: linear scan returning the first event with the given id,
or `None`. -/
def getEvent (s : CalendarState) (event_id : String) : Option CalendarEvent :=
  s.events.find? (fun e => e.id == event_id)

/-- The keyword arguments of `update_event`: one `Option` per event
attribute, `none` when the key is absent from `kwargs`. -/
structure UpdateFields where
  id : Option String
  title : Option String
  description : Option String
  start_time : Option Int
  end_time : Option Int
  location : Option String
  attendees : Option (List String)
  reminder_minutes : Option Int
  is_all_day : Option Bool
  recurrence : Option String
  created_at : Option Int
deriving DecidableEq, Repr

/-- The `for key, value in kwargs.items(): if hasattr(event, key):
setattr(event, key, value)` loop of `update_event`, applied to one event:
every supplied field overwrites the attribute of the same name (including
`id` and `created_at`, which pass the `hasattr` test like any other). -/
def applyFields (e : CalendarEvent) (k : UpdateFields) : CalendarEvent :=
  { id := k.id.getD e.id, title := k.title.getD e.title,
    description := k.description.getD e.description,
    start_time := k.start_time.getD e.start_time,
    end_time := k.end_time.getD e.end_time,
    location := k.location.getD e.location,
    attendees := k.attendees.getD e.attendees,
    reminder_minutes := k.reminder_minutes.getD e.reminder_minutes,
    is_all_day := k.is_all_day.getD e.is_all_day,
    recurrence := k.recurrence.getD e.recurrence,
    created_at := k.created_at.getD e.created_at }

/-- `setattr` mutates the event object in place, so in the list the first
event whose id matches is replaced by its updated copy. -/
def updateFirst (l : List CalendarEvent) (event_id : String) (k : UpdateFields) :
    List CalendarEvent :=
  match l with
  | [] => []
  | e :: rest =>
    if e.id == event_id then applyFields e k :: rest
    else e :: updateFirst rest event_id k

/-- `update_event`: `get_event`, early `False` when absent; otherwise the
kwargs loop mutates the found event, `_save_events` runs, and `True` is
returned.  No re-validation of anything happens. -/
def updateEvent (s : CalendarState) (saveOk : Bool) (event_id : String)
    (k : UpdateFields) : CalendarState × Bool :=
  match getEvent s event_id with
  | none => (s, false)
  | some _ =>
    (saveEvents { s with events := updateFirst s.events event_id k } saveOk, true)

/-- `delete_event`: pops the first event with the given id and saves,
returning `True`; returns `False` when no id matches. -/
def deleteEvent (s : CalendarState) (saveOk : Bool) (event_id : String) :
    CalendarState × Bool :=
  if s.events.any (fun e => e.id == event_id) then
    (saveEvents { s with events := s.events.eraseP (fun e => e.id == event_id) } saveOk,
      true)
  else (s, false)

/-- Comparison key for every `events.sort(key=lambda e: e.start_time)`. -/
def startLe (a b : CalendarEvent) : Prop :=
  a.start_time ≤ b.start_time

instance : DecidableRel startLe :=
  fun a b => inferInstanceAs (Decidable (a.start_time ≤ b.start_time))

instance : IsTotal CalendarEvent startLe :=
  ⟨fun a b => Int.le_total a.start_time b.start_time⟩

instance : IsTrans CalendarEvent startLe :=
  ⟨fun _ _ _ hab hbc => le_trans hab hbc⟩

/-- `events.sort(key=lambda e: e.start_time)` (Python Timsort; only the
sortedness and the multiset of elements matter to the claims). -/
def sortByStart (l : List CalendarEvent) : List CalendarEvent :=
  l.insertionSort startLe

/-- Python ordinal of the calendar date of a timestamp:
`datetime.fromordinal(1)` is 0001-01-01, so `t.date()` has ordinal
`t / 86400 + 1`. -/
def dateOrdinal (t : Int) : Int :=
  t / 86400 + 1

/-- `get_events_for_date`: events whose `start_time.date()` equals the
target date (given by Python ordinal), sorted by start time. -/
def getEventsForDate (s : CalendarState) (target_ord : Int) : List CalendarEvent :=
  sortByStart (s.events.filter (fun e => dateOrdinal e.start_time == target_ord))

/-- The `if exclude_event_id and event.id == exclude_event_id: continue`
test of `get_event_conflicts`.  Python truthiness: `None` and the empty
string are falsy, so exclusion only applies when a non-empty id was
passed. -/
def excludedBy (ex : Option String) (eid : String) : Bool :=
  match ex with
  | none => false
  | some x => !(x == "") && eid == x

/-- `get_event_conflicts`: every stored event, minus the excluded id, that
satisfies the strict overlap test
`start_time < event.end_time and end_time > event.start_time`, in store
order. -/
def getEventConflicts (s : CalendarState) (start_time end_time : Int)
    (exclude_event_id : Option String) : List CalendarEvent :=
  s.events.filter (fun event =>
    if excludedBy exclude_event_id event.id then false
    else decide (start_time < event.end_time ∧ end_time > event.start_time))

/-- A free slot as returned by `get_free_time_slots` (the dict with keys
`start` and `end`; `end` is a Lean keyword, hence `stop`). -/
structure TimeSlot where
  start : Int
  stop : Int
deriving DecidableEq, Repr

/-- `timedelta.seconds // 60` of a nonnegative whole-second delta: the
`seconds` attribute is the day-normalized component, `delta mod 86400`. -/
def deltaMinutes (delta : Int) : Int :=
  delta % 86400 / 60

/-- The body of the `for event in events` loop of `get_free_time_slots`:
emit the gap before the event when it is at least `duration_minutes` long,
then advance `current_time` to `max(current_time, event.end_time)`. -/
def freeSlotStep (duration_minutes : Int) (acc : List TimeSlot × Int)
    (event : CalendarEvent) : List TimeSlot × Int :=
  let slots :=
    if event.start_time > acc.2 then
      if deltaMinutes (event.start_time - acc.2) ≥ duration_minutes then
        acc.1 ++ [⟨acc.2, event.start_time⟩]
      else acc.1
    else acc.1
  (slots, max acc.2 event.end_time)

/-- `get_free_time_slots`: the day's events (already sorted by
`get_events_for_date`, sorted again as in the source), a cursor walk from
09:00 to 18:00 of the target date, and a final gap up to `work_end`. -/
def getFreeTimeSlots (s : CalendarState) (target_ord : Int)
    (duration_minutes : Int) : List TimeSlot :=
  let events := sortByStart (getEventsForDate s target_ord)
  let work_start : Int := (target_ord - 1) * 86400 + 9 * 3600
  let work_end : Int := (target_ord - 1) * 86400 + 18 * 3600
  let walk := events.foldl (freeSlotStep duration_minutes) ([], work_start)
  if walk.2 < work_end then
    if deltaMinutes (work_end - walk.2) ≥ duration_minutes then
      walk.1 ++ [⟨walk.2, work_end⟩]
    else walk.1
  else walk.1

/-- `get_events_needing_reminders`: events whose reminder time
`start_time - reminder_minutes` lies in `[now - 1 minute, now]`, i.e.
`reminder_time <= now <= reminder_time + 1 minute`, in store order.
`now` is the value of `datetime.now()`. -/
def getEventsNeedingReminders (s : CalendarState) (now : Int) : List CalendarEvent :=
  s.events.filter (fun event =>
    let reminder_time := event.start_time - event.reminder_minutes * 60
    decide (reminder_time ≤ now ∧ now ≤ reminder_time + 60))

/-- Python `str.lower()`, character by character (`Char.toLower`; the
exact case table is irrelevant to the claims, which only use the empty
query). -/
def strLower (s : String) : String :=
  ⟨s.data.map Char.toLower⟩

/-- Python `sub in s` on lowercased strings: some index where `sub` is a
prefix of the remainder (the empty string occurs in every string). -/
def strContains (hay sub : String) : Bool :=
  (List.range (hay.data.length + 1)).any (fun i => sub.data.isPrefixOf (hay.data.drop i))

/-- `search_events`: case-insensitive substring match against title,
description, or location, results sorted by start time. -/
def searchEvents (s : CalendarState) (query : String) : List CalendarEvent :=
  let q := strLower query
  sortByStart (s.events.filter (fun event =>
    strContains (strLower event.title) q || strContains (strLower event.description) q ||
      strContains (strLower event.location) q))

/-- Proleptic-Gregorian leap-year test (`calendar.isleap`). -/
def isLeap (y : Nat) : Bool :=
  y % 4 == 0 && (y % 100 != 0 || y % 400 == 0)

/-- Length of a month (`calendar.monthrange` / CPython `_days_in_month`). -/
def daysInMonth (y m : Nat) : Nat :=
  if m == 2 then (if isLeap y then 29 else 28)
  else if m == 4 || m == 6 || m == 9 || m == 11 then 30
  else 31

/-- Days before January 1st of year `y` (CPython `_days_before_year`). -/
def daysBeforeYear (y : Nat) : Nat :=
  let p := y - 1
  365 * p + p / 4 - p / 100 + p / 400

/-- Days in year `y` before the first of month `m`. -/
def daysBeforeMonth (y m : Nat) : Nat :=
  (List.range (m - 1)).foldl (fun acc i => acc + daysInMonth y (i + 1)) 0

/-- `date(y, m, d).toordinal()`: 1 for 0001-01-01. -/
def toOrdinal (y m d : Nat) : Nat :=
  daysBeforeYear y + daysBeforeMonth y m + d

/-- Year containing a given ordinal: smallest `y` with
`ord ≤ daysBeforeYear (y + 1)`, sought by bounded linear scan from 1
(CPython `_ord2ymd` uses closed-form estimates; only the result matters). -/
def yearOfOrdAux (fuel y ord : Nat) : Nat :=
  match fuel with
  | 0 => y
  | fuel + 1 =>
    if ord ≤ daysBeforeYear (y + 1) then y else yearOfOrdAux fuel (y + 1) ord

/-- Month and day-of-month from a day-of-year count. -/
def monthOfAux (y fuel m doy : Nat) : Nat × Nat :=
  match fuel with
  | 0 => (m, doy)
  | fuel + 1 =>
    if doy ≤ daysInMonth y m then (m, doy)
    else monthOfAux y fuel (m + 1) (doy - daysInMonth y m)

/-- `date.fromordinal`: ordinal to `(year, month, day)`. -/
def ordToDate (ord : Nat) : Nat × Nat × Nat :=
  let y := yearOfOrdAux 9999 1 ord
  let md := monthOfAux y 11 1 (ord - daysBeforeYear y)
  (y, md.1, md.2)

/-- `start_time.year` of an event timestamp. -/
def timeYear (t : Int) : Nat :=
  (ordToDate (dateOrdinal t).toNat).1

/-- `start_time.month` of an event timestamp. -/
def timeMonth (t : Int) : Nat :=
  (ordToDate (dateOrdinal t).toNat).2.1

/-- `get_events_for_month`: events whose start lies in the given calendar
month, sorted by start time. -/
def getEventsForMonth (s : CalendarState) (year month : Nat) : List CalendarEvent :=
  sortByStart (s.events.filter (fun e =>
    timeYear e.start_time == year && timeMonth e.start_time == month))

/-- One cell of the 6-by-7 display grid built by `get_calendar_matrix`
(the per-day dict appended to `week_data`).  `date` is the Python ordinal
of the cell's calendar date. -/
structure CalendarCell where
  day : Nat
  date : Nat
  is_current_month : Bool
  is_today : Bool
  events : List CalendarEvent
  has_events : Bool
deriving DecidableEq, Repr

/-- Builds the cell of date `ord`: `events_by_date` groups `all_events` by
`start_time.date()` preserving order, so the cell's event list is the
in-order sublist of `all_events` with that date. -/
def makeCell (all_events : List CalendarEvent) (year month today ord : Nat) :
    CalendarCell :=
  let parts := ordToDate ord
  let cellEvents := all_events.filter (fun e => dateOrdinal e.start_time == (ord : Int))
  { day := parts.2.2, date := ord,
    is_current_month := parts.2.1 == month && parts.1 == year,
    is_today := ord == today,
    events := cellEvents,
    has_events := !cellEvents.isEmpty }

/-- The `calendar_matrix` value of `get_calendar_matrix`: 6 weeks of 7
cells from the Sunday on or before the 1st of the month, with events
pulled from the requested month plus, when the grid starts in a different
month, that previous month.  `today` is `datetime.now().date()` as an
ordinal.  (The returned metadata `month_name`, `events_count` and
`total_days_with_events` are not touched by any claim and are omitted.) -/
def getCalendarMatrix (s : CalendarState) (year month today : Nat) :
    List (List CalendarCell) :=
  let firstOrd := toOrdinal year month 1
  let first_day_weekday := ((firstOrd - 1) % 7 + 1) % 7
  let startOrd := firstOrd - first_day_weekday
  let startParts := ordToDate startOrd
  let current_events := getEventsForMonth s year month
  let all_events :=
    if startParts.2.1 != month || startParts.1 != year then
      current_events ++ getEventsForMonth s startParts.1 startParts.2.1
    else current_events
  (List.range 6).map (fun w =>
    (List.range 7).map (fun d =>
      makeCell all_events year month today (startOrd + (7 * w + d))))

/-! Serialization (`to_dict` / `from_dict`).  Claim C7 is about the exact
text of the ISO-8601 timestamps, so here timestamps are modelled
structurally, as the component record CPython's `datetime` stores, and
`isoformat` / `fromisoformat` are embedded on that representation. -/

/-- A naive `datetime.datetime` value: its stored components. -/
structure PyDateTime where
  year : Nat
  month : Nat
  day : Nat
  hour : Nat
  minute : Nat
  second : Nat
  microsecond : Nat
deriving DecidableEq, Repr

/-- The constructor range checks of `datetime.datetime`. -/
def PyDateTime.okRanges (year month day hour minute second microsecond : Nat) : Prop :=
  1 ≤ year ∧ year ≤ 9999 ∧ 1 ≤ month ∧ month ≤ 12 ∧
    1 ≤ day ∧ day ≤ daysInMonth year month ∧
    hour ≤ 23 ∧ minute ≤ 59 ∧ second ≤ 59 ∧ microsecond ≤ 999999

instance (y m d h mi s us : Nat) : Decidable (PyDateTime.okRanges y m d h mi s us) :=
  by unfold PyDateTime.okRanges; infer_instance

/-- A representable `datetime` value. -/
def PyDateTime.valid (t : PyDateTime) : Prop :=
  PyDateTime.okRanges t.year t.month t.day t.hour t.minute t.second t.microsecond

instance (t : PyDateTime) : Decidable t.valid :=
  by unfold PyDateTime.valid; infer_instance

/-- The decimal digit character for `n < 10`. -/
def digitChar (n : Nat) : Char :=
  Char.ofNat (48 + n)

/-- Numeric value of a decimal digit character. -/
def digitVal (c : Char) : Nat :=
  c.toNat - 48

/-- Two-digit zero-padded field (`%02d`). -/
def pad2 (n : Nat) : List Char :=
  [digitChar (n / 10), digitChar (n % 10)]

/-- Four-digit zero-padded field (`%04d`). -/
def pad4 (n : Nat) : List Char :=
  [digitChar (n / 1000), digitChar (n / 100 % 10), digitChar (n / 10 % 10),
    digitChar (n % 10)]

/-- Six-digit zero-padded field (`%06d`). -/
def pad6 (n : Nat) : List Char :=
  [digitChar (n / 100000), digitChar (n / 10000 % 10), digitChar (n / 1000 % 10),
    digitChar (n / 100 % 10), digitChar (n / 10 % 10), digitChar (n % 10)]

/-- `datetime.isoformat()` for a naive value:
`YYYY-MM-DDTHH:MM:SS`, with `.ffffff` appended exactly when the
microsecond component is nonzero, and no timezone suffix. -/
def PyDateTime.isoformat (t : PyDateTime) : String :=
  ⟨pad4 t.year ++ '-' :: pad2 t.month ++ '-' :: pad2 t.day ++ 'T' :: pad2 t.hour ++
    ':' :: pad2 t.minute ++ ':' :: pad2 t.second ++
    (if t.microsecond == 0 then [] else '.' :: pad6 t.microsecond)⟩

/-- Range validation performed by `datetime.fromisoformat` before
constructing the value. -/
def mkChecked (year month day hour minute second microsecond : Nat) :
    Option PyDateTime :=
  if PyDateTime.okRanges year month day hour minute second microsecond then
    some ⟨year, month, day, hour, minute, second, microsecond⟩
  else none

/-- `datetime.fromisoformat` on the grammar `isoformat` emits for naive
values (full date and time with `T` separator, optional 6-digit
fraction) — the only strings `from_dict` ever receives from `to_dict`
output.  Anything else is rejected. -/
def parseIsoChars : List Char → Option PyDateTime
  | y1 :: y2 :: y3 :: y4 :: '-' :: m1 :: m2 :: '-' :: d1 :: d2 :: 'T' ::
      h1 :: h2 :: ':' :: n1 :: n2 :: ':' :: s1 :: s2 :: rest =>
    if [y1, y2, y3, y4, m1, m2, d1, d2, h1, h2, n1, n2, s1, s2].all Char.isDigit then
      let year := digitVal y1 * 1000 + digitVal y2 * 100 + digitVal y3 * 10 + digitVal y4
      let month := digitVal m1 * 10 + digitVal m2
      let day := digitVal d1 * 10 + digitVal d2
      let hour := digitVal h1 * 10 + digitVal h2
      let minute := digitVal n1 * 10 + digitVal n2
      let second := digitVal s1 * 10 + digitVal s2
      match rest with
      | [] => mkChecked year month day hour minute second 0
      | '.' :: u1 :: u2 :: u3 :: u4 :: u5 :: u6 :: [] =>
        if [u1, u2, u3, u4, u5, u6].all Char.isDigit then
          mkChecked year month day hour minute second
            (digitVal u1 * 100000 + digitVal u2 * 10000 + digitVal u3 * 1000 +
              digitVal u4 * 100 + digitVal u5 * 10 + digitVal u6)
        else none
      | _ => none
    else none
  | _ => none

/-- `datetime.fromisoformat` on a string. -/
def fromisoformat (s : String) : Option PyDateTime :=
  parseIsoChars s.data

/-- The `CalendarEvent` dataclass with its timestamps kept structural, for
the serialization claims. -/
structure EventRecord where
  id : String
  title : String
  description : String
  start_time : PyDateTime
  end_time : PyDateTime
  location : String
  attendees : List String
  reminder_minutes : Int
  is_all_day : Bool
  recurrence : String
  created_at : PyDateTime
deriving DecidableEq, Repr

/-- One JSON object of the data file: `asdict` output with the three
timestamp fields replaced by ISO strings. -/
structure EventDict where
  id : String
  title : String
  description : String
  start_time : String
  end_time : String
  location : String
  attendees : List String
  reminder_minutes : Int
  is_all_day : Bool
  recurrence : String
  created_at : String
deriving DecidableEq, Repr

/-- `CalendarEvent.to_dict`. -/
def toDict (e : EventRecord) : EventDict :=
  { id := e.id, title := e.title, description := e.description,
    start_time := e.start_time.isoformat, end_time := e.end_time.isoformat,
    location := e.location, attendees := e.attendees,
    reminder_minutes := e.reminder_minutes, is_all_day := e.is_all_day,
    recurrence := e.recurrence, created_at := e.created_at.isoformat }

/-- `CalendarEvent.from_dict`: parse the three timestamp strings and
rebuild the dataclass; a parse failure raises in Python, here `none`. -/
def fromDict (d : EventDict) : Option EventRecord :=
  match fromisoformat d.start_time, fromisoformat d.end_time,
      fromisoformat d.created_at with
  | some st, some et, some ct =>
    some ⟨d.id, d.title, d.description, st, et, d.location, d.attendees,
      d.reminder_minutes, d.is_all_day, d.recurrence, ct⟩
  | _, _, _ => none

/-- `_save_events` serialization step: the list written to the file. -/
def saveFormat (events : List EventRecord) : List EventDict :=
  events.map toDict

/-- `_load_events` parsing step over the file contents. -/
def loadFormat (dicts : List EventDict) : Option (List EventRecord) :=
  dicts.mapM fromDict

/-! Concrete fixtures used by witnesses and counterexamples. -/

/-- Event A of the spec's overlap scenario: [10:00, 11:00) of ordinal day 1
(10:00 is second 36000 of the day). -/
def evA : CalendarEvent :=
  ⟨"aaaa1111", "Event A", "", 36000, 39600, "", [], 15, false, "none", 0⟩

/-- Event B of the spec's overlap scenario: [11:00, 12:00) of ordinal day 1. -/
def evB : CalendarEvent :=
  ⟨"bbbb2222", "Event B", "", 39600, 43200, "", [], 15, false, "none", 0⟩

/-- Store holding exactly A and B, memory and disk in sync. -/
def stAB : CalendarState :=
  ⟨[evA, evB], [evA, evB]⟩

/-- Store holding only A. -/
def stA : CalendarState :=
  ⟨[evA], [evA]⟩

/-! Helper lemmas about the repository operations. -/

/-- `_save_events` never touches the in-memory list, only the file. -/
theorem saveEvents_events (s : CalendarState) (ok : Bool) :
    (saveEvents s ok).events = s.events := by
  unfold saveEvents
  split <;> rfl

/-- A failed save leaves the file mirror untouched. -/
theorem saveEvents_disk_of_failed (s : CalendarState) :
    (saveEvents s false).disk = s.disk :=
  rfl

/-- The event found by `get_event` is the one the kwargs loop mutates: its
updated copy is in the updated list. -/
theorem applyFields_mem_updateFirst (l : List CalendarEvent) (eid : String)
    (k : UpdateFields) (e : CalendarEvent)
    (h : l.find? (fun x => x.id == eid) = some e) :
    applyFields e k ∈ updateFirst l eid k := by
  induction l with
  | nil => simp [List.find?] at h
  | cons a rest ih =>
    by_cases ha : (a.id == eid) = true
    · simp only [List.find?_cons, ha, if_pos] at h
      obtain rfl := Option.some.inj h
      unfold updateFirst
      rw [if_pos ha]
      exact List.mem_cons_self _ _
    · simp only [List.find?_cons, ha, if_neg, Bool.false_eq_true, ite_false] at h
      unfold updateFirst
      rw [if_neg ha]
      exact List.mem_cons_of_mem _ (ih h)

/-! Claim C1 — validation of `create` / `update`. -/

/-- C1, counterexample: `create_event` performs no validation at all.
Called with an empty title and `start_time > end_time` on an empty store,
it still returns the generated id and the stored collection now holds an
event with an empty title and `start_time > end_time` — no
`ValidationError` exists anywhere in the module and the claimed invariant
fails. -/
theorem C1_create_no_validation_counterexample :
    (createEvent ⟨[], []⟩ true "deadbeef" 0 "" 100 50 "" "" none 15 false "none").2 =
      "deadbeef" ∧
    ∃ e ∈ (createEvent ⟨[], []⟩ true "deadbeef" 0 "" 100 50 "" "" none 15
        false "none").1.events,
      e.title = "" ∧ e.start_time > e.end_time := by
  refine ⟨rfl, ⟨"deadbeef", "", "", 100, 50, "", [], 15, false, "none", 0⟩, ?_, rfl, ?_⟩
  · decide
  · decide

/-- C1, amended: `create_event` and `update_event` never validate their
input.  `create_event` appends the new event and returns its id even when
`start_time > end_time`, leaving an inverted interval in the store;
`update_event` on a found id applies the merged fields and returns `True`
even when the merge yields `start_time > end_time`.  No `ValidationError`
is ever raised and the store invariant `start_time <= end_time` is not
enforced. -/
theorem C1_no_validation :
    (∀ (s : CalendarState) (ok : Bool) (gid : String) (now : Int) (title : String)
        (st en : Int) (de lo : String) (att : Option (List String)) (rm : Int)
        (ad : Bool) (rc : String), st > en →
      (createEvent s ok gid now title st en de lo att rm ad rc).2 = gid ∧
        ∃ e ∈ (createEvent s ok gid now title st en de lo att rm ad rc).1.events,
          e.start_time > e.end_time) ∧
    (∀ (s : CalendarState) (ok : Bool) (eid : String) (k : UpdateFields)
        (e : CalendarEvent), getEvent s eid = some e →
      (applyFields e k).start_time > (applyFields e k).end_time →
      (updateEvent s ok eid k).2 = true ∧
        ∃ e2 ∈ (updateEvent s ok eid k).1.events,
          e2.start_time > e2.end_time) := by
  constructor
  · intro s ok gid now title st en de lo att rm ad rc hlt
    refine ⟨rfl, ⟨gid, title, de, st, en, lo, att.getD [], rm, ad, rc, now⟩, ?_, hlt⟩
    show _ ∈ (saveEvents _ ok).events
    rw [saveEvents_events]
    exact List.mem_append_right _ (List.mem_singleton.mpr rfl)
  · intro s ok eid k e hfind hbad
    unfold updateEvent
    rw [hfind]
    refine ⟨rfl, applyFields e k, ?_, hbad⟩
    show _ ∈ (saveEvents _ ok).events
    rw [saveEvents_events]
    exact applyFields_mem_updateFirst s.events eid k e hfind

/-- C1 witness: both halves of `C1_no_validation` at concrete inputs — a
create with interval [100, 50) on the empty store, and an update that
moves event A's start past its end. -/
theorem C1_no_validation_witness :
    ((100 : Int) > 50 ∧
      (createEvent ⟨[], []⟩ true "cafe0000" 7 "t" 100 50 "" "" none 15 false
          "none").2 = "cafe0000" ∧
      ∃ e ∈ (createEvent ⟨[], []⟩ true "cafe0000" 7 "t" 100 50 "" "" none 15 false
          "none").1.events, e.start_time > e.end_time) ∧
    (getEvent stA "aaaa1111" = some evA ∧
      (applyFields evA ⟨none, none, none, some 50000, none, none, none, none, none,
          none, none⟩).start_time >
        (applyFields evA ⟨none, none, none, some 50000, none, none, none, none, none,
          none, none⟩).end_time ∧
      (updateEvent stA true "aaaa1111" ⟨none, none, none, some 50000, none, none,
          none, none, none, none, none⟩).2 = true ∧
      ∃ e2 ∈ (updateEvent stA true "aaaa1111" ⟨none, none, none, some 50000, none,
          none, none, none, none, none, none⟩).1.events,
        e2.start_time > e2.end_time) := by
  constructor
  · exact ⟨by decide,
      C1_no_validation.1 ⟨[], []⟩ true "cafe0000" 7 "t" 100 50 "" "" none 15 false
        "none" (by decide)⟩
  · exact ⟨by decide, by decide,
      C1_no_validation.2 stA true "aaaa1111" _ evA (by decide) (by decide)⟩

/-! Claim C4 — behavior on persist failure. -/

/-- C4, counterexample: a create whose save fails (`saveOk = false`) still
returns the new id — the caller sees success, not failure — and leaves the
event in memory while the disk mirror is unchanged, so memory and disk
now diverge and nothing was rolled back. -/
theorem C4_no_rollback_counterexample :
    createEvent ⟨[], []⟩ false "feed0001" 0 "Meeting" 10 20 "" "" none 15 false
        "none" =
      (⟨[⟨"feed0001", "Meeting", "", 10, 20, "", [], 15, false, "none", 0⟩], []⟩,
        "feed0001") ∧
    (createEvent ⟨[], []⟩ false "feed0001" 0 "Meeting" 10 20 "" "" none 15 false
        "none").1.events ≠
      (createEvent ⟨[], []⟩ false "feed0001" 0 "Meeting" 10 20 "" "" none 15 false
        "none").1.disk := by
  constructor
  · decide
  · decide

/-- C4, amended: `_save_events` catches every write exception and only
logs it, so a failed persist is invisible to the caller: `create_event`
still returns the id with the event kept in memory, `update_event` and
`delete_event` still return `True` with their mutation kept in memory, and
in each case the disk mirror stays whatever it was — memory and disk
remain divergent until some later save succeeds. -/
theorem C4_save_failure_swallowed :
    (∀ (s : CalendarState) (gid : String) (now : Int) (title : String) (st en : Int)
        (de lo : String) (att : Option (List String)) (rm : Int) (ad : Bool)
        (rc : String),
      (createEvent s false gid now title st en de lo att rm ad rc).2 = gid ∧
      (createEvent s false gid now title st en de lo att rm ad rc).1.events =
        s.events ++ [⟨gid, title, de, st, en, lo, att.getD [], rm, ad, rc, now⟩] ∧
      (createEvent s false gid now title st en de lo att rm ad rc).1.disk = s.disk) ∧
    (∀ (s : CalendarState) (eid : String) (k : UpdateFields) (e : CalendarEvent),
      getEvent s eid = some e →
      (updateEvent s false eid k).2 = true ∧
      (updateEvent s false eid k).1.events = updateFirst s.events eid k ∧
      (updateEvent s false eid k).1.disk = s.disk) ∧
    (∀ (s : CalendarState) (eid : String),
      s.events.any (fun e => e.id == eid) = true →
      (deleteEvent s false eid).2 = true ∧
      (deleteEvent s false eid).1.events =
        s.events.eraseP (fun e => e.id == eid) ∧
      (deleteEvent s false eid).1.disk = s.disk) := by
  refine ⟨?_, ?_, ?_⟩
  · intro s gid now title st en de lo att rm ad rc
    exact ⟨rfl, rfl, rfl⟩
  · intro s eid k e hfind
    unfold updateEvent
    rw [hfind]
    exact ⟨rfl, rfl, rfl⟩
  · intro s eid hmem
    unfold deleteEvent
    rw [if_pos hmem]
    exact ⟨rfl, rfl, rfl⟩

/-- C4 witness: all three parts of `C4_save_failure_swallowed` at concrete
inputs over the store holding event A. -/
theorem C4_save_failure_witness :
    ((createEvent stA false "feed0002" 3 "X" 5 9 "" "" none 15 false "none").2 =
        "feed0002" ∧
      (createEvent stA false "feed0002" 3 "X" 5 9 "" "" none 15 false
          "none").1.events =
        stA.events ++ [⟨"feed0002", "X", "", 5, 9, "", [], 15, false, "none", 3⟩] ∧
      (createEvent stA false "feed0002" 3 "X" 5 9 "" "" none 15 false
          "none").1.disk = stA.disk) ∧
    (getEvent stA "aaaa1111" = some evA ∧
      ((updateEvent stA false "aaaa1111" ⟨none, some "New", none, none, none, none,
          none, none, none, none, none⟩).2 = true ∧
        (updateEvent stA false "aaaa1111" ⟨none, some "New", none, none, none, none,
            none, none, none, none, none⟩).1.events =
          updateFirst stA.events "aaaa1111" ⟨none, some "New", none, none, none,
            none, none, none, none, none, none⟩ ∧
        (updateEvent stA false "aaaa1111" ⟨none, some "New", none, none, none, none,
            none, none, none, none, none⟩).1.disk = stA.disk)) ∧
    (stA.events.any (fun e => e.id == "aaaa1111") = true ∧
      ((deleteEvent stA false "aaaa1111").2 = true ∧
        (deleteEvent stA false "aaaa1111").1.events =
          stA.events.eraseP (fun e => e.id == "aaaa1111") ∧
        (deleteEvent stA false "aaaa1111").1.disk = stA.disk)) := by
  refine ⟨?_, ⟨by decide, ?_⟩, ⟨by decide, ?_⟩⟩
  · exact C4_save_failure_swallowed.1 stA "feed0002" 3 "X" 5 9 "" "" none 15 false
      "none"
  · exact C4_save_failure_swallowed.2.1 stA "aaaa1111" _ evA (by decide)
  · exact C4_save_failure_swallowed.2.2 stA "aaaa1111" (by decide)

/-! Claim C5 — id uniqueness. -/

/-- C5, counterexample: `_generate_event_id` is `str(uuid.uuid4())[:8]`,
drawn without any check against the ids already stored.  When the drawn id
equals an existing one, `create_event` happily appends a second event with
the same id: starting from a store whose only event has id `aaaa1111` and
drawing `aaaa1111` again leaves two distinct events sharing one id, so the
all-ids-differ invariant is violated. -/
theorem C5_id_collision_counterexample :
    ((createEvent stA true "aaaa1111" 5 "Other" 1 2 "" "" none 15 false
        "none").1.events.map (fun e => e.id)) = ["aaaa1111", "aaaa1111"] ∧
    ¬ ((createEvent stA true "aaaa1111" 5 "Other" 1 2 "" "" none 15 false
        "none").1.events.Pairwise (fun a b => a.id ≠ b.id)) := by
  constructor
  · decide
  · decide

/-- C5, amended: `create_event` stores the drawn 8-character id without
checking it against existing ids, so uniqueness is not enforced by the
code: whenever the drawn id already occurs in the store, the resulting
collection has two events with equal ids.  (Collisions are merely
improbable for `uuid4()[:8]`, not impossible, and nothing detects them.) -/
theorem C5_no_collision_check :
    ∀ (s : CalendarState) (ok : Bool) (gid : String) (now : Int) (title : String)
      (st en : Int) (de lo : String) (att : Option (List String)) (rm : Int)
      (ad : Bool) (rc : String) (e : CalendarEvent),
    e ∈ s.events → e.id = gid →
    ¬ ((createEvent s ok gid now title st en de lo att rm ad rc).1.events.Pairwise
        (fun a b => a.id ≠ b.id)) := by
  intro s ok gid now title st en de lo att rm ad rc e hmem hid hpw
  rw [show (createEvent s ok gid now title st en de lo att rm ad rc).1.events =
      s.events ++ [⟨gid, title, de, st, en, lo, att.getD [], rm, ad, rc, now⟩]
    from saveEvents_events _ _] at hpw
  rw [List.pairwise_append] at hpw
  exact hpw.2.2 e hmem _ (List.mem_singleton.mpr rfl) hid

/-- C5 witness: `C5_no_collision_check` at the concrete collision of the
counterexample. -/
theorem C5_no_collision_check_witness :
    (evA ∈ stA.events ∧ evA.id = "aaaa1111") ∧
    ¬ ((createEvent stA true "aaaa1111" 5 "Other" 1 2 "" "" none 15 false
        "none").1.events.Pairwise (fun a b => a.id ≠ b.id)) :=
  ⟨⟨by decide, by decide⟩,
    C5_no_collision_check stA true "aaaa1111" 5 "Other" 1 2 "" "" none 15 false
      "none" evA (by decide) (by decide)⟩

/-! Claim C6 — which fields `update` can change. -/

/-- C6, counterexample: the kwargs loop guards only with `hasattr`, and
`id` and `created_at` are attributes like any other, so an update naming
them overwrites them: updating event A with `id="bbbb9999"` and
`created_at=999` replaces both supposedly immutable fields. -/
theorem C6_immutable_fields_counterexample :
    (updateEvent stA true "aaaa1111" ⟨some "bbbb9999", none, none, none, none, none,
        none, none, none, none, some 999⟩).1.events =
      [⟨"bbbb9999", "Event A", "", 36000, 39600, "", [], 15, false, "none", 999⟩] ∧
    (updateEvent stA true "aaaa1111" ⟨some "bbbb9999", none, none, none, none, none,
        none, none, none, none, some 999⟩).2 = true := by
  constructor
  · decide
  · decide

/-- C6, amended: `update_event` applies exactly the supplied fields — every
field absent from the kwargs keeps its previous value (the frame part of
the claim holds) — but the supplied set is not restricted: a supplied `id`
or `created_at` overwrites the value assigned at creation, so those two
fields are not immutable.  The updated copy of the found event is what
ends up in the store. -/
theorem C6_update_applies_supplied_fields :
    (∀ (e : CalendarEvent) (k : UpdateFields),
      (k.id = none → (applyFields e k).id = e.id) ∧
      (k.title = none → (applyFields e k).title = e.title) ∧
      (k.description = none → (applyFields e k).description = e.description) ∧
      (k.start_time = none → (applyFields e k).start_time = e.start_time) ∧
      (k.end_time = none → (applyFields e k).end_time = e.end_time) ∧
      (k.location = none → (applyFields e k).location = e.location) ∧
      (k.attendees = none → (applyFields e k).attendees = e.attendees) ∧
      (k.reminder_minutes = none →
        (applyFields e k).reminder_minutes = e.reminder_minutes) ∧
      (k.is_all_day = none → (applyFields e k).is_all_day = e.is_all_day) ∧
      (k.recurrence = none → (applyFields e k).recurrence = e.recurrence) ∧
      (k.created_at = none → (applyFields e k).created_at = e.created_at)) ∧
    (∀ (e : CalendarEvent) (k : UpdateFields) (v : String),
      k.id = some v → (applyFields e k).id = v) ∧
    (∀ (e : CalendarEvent) (k : UpdateFields) (v : Int),
      k.created_at = some v → (applyFields e k).created_at = v) ∧
    (∀ (s : CalendarState) (ok : Bool) (eid : String) (k : UpdateFields)
        (e : CalendarEvent), getEvent s eid = some e →
      applyFields e k ∈ (updateEvent s ok eid k).1.events) := by
  refine ⟨?_, ?_, ?_, ?_⟩
  · intro e k
    refine ⟨?_, ?_, ?_, ?_, ?_, ?_, ?_, ?_, ?_, ?_, ?_⟩ <;>
      · intro hk
        simp [applyFields, hk]
  · intro e k v hk
    simp [applyFields, hk]
  · intro e k v hk
    simp [applyFields, hk]
  · intro s ok eid k e hfind
    unfold updateEvent
    rw [hfind]
    show _ ∈ (saveEvents _ ok).events
    rw [saveEvents_events]
    exact applyFields_mem_updateFirst s.events eid k e hfind

/-- C6 witness: `C6_update_applies_supplied_fields` at event A with a
kwargs record supplying only `id` and `created_at`. -/
theorem C6_update_fields_witness :
    (((⟨some "bbbb9999", none, none, none, none, none, none, none, none, none,
          some 999⟩ : UpdateFields).title = none ∧
        (applyFields evA ⟨some "bbbb9999", none, none, none, none, none, none, none,
          none, none, some 999⟩).title = evA.title) ∧
      ((⟨some "bbbb9999", none, none, none, none, none, none, none, none, none,
          some 999⟩ : UpdateFields).id = some "bbbb9999" ∧
        (applyFields evA ⟨some "bbbb9999", none, none, none, none, none, none, none,
          none, none, some 999⟩).id = "bbbb9999")) ∧
    (getEvent stA "aaaa1111" = some evA ∧
      applyFields evA ⟨some "bbbb9999", none, none, none, none, none, none, none,
          none, none, some 999⟩ ∈
        (updateEvent stA true "aaaa1111" ⟨some "bbbb9999", none, none, none, none,
          none, none, none, none, none, some 999⟩).1.events) := by
  refine ⟨⟨⟨rfl, ?_⟩, rfl, ?_⟩, by decide, ?_⟩
  · exact (C6_update_applies_supplied_fields.1 evA _).2.1 rfl
  · exact C6_update_applies_supplied_fields.2.1 evA _ "bbbb9999" rfl
  · exact C6_update_applies_supplied_fields.2.2.2 stA true "aaaa1111" _ evA
      (by decide)

/-! Claim C2 — conflict detection. -/

/-- C2, counterexample: the claim's concrete example contradicts its own
overlap rule.  With A=[10:00,11:00) and B=[11:00,12:00) stored,
`conflicts(10:30, 11:30)` returns both events, not only A: B overlaps the
queried interval on [11:00,11:30), and indeed `B.start (11:00) < 11:30`
and `B.end (12:00) > 10:30`.  (Times are seconds of ordinal day 1:
10:30 = 37800, 11:30 = 41400.) -/
theorem C2_overlap_example_counterexample :
    getEventConflicts stAB 37800 41400 none = [evA, evB] ∧
    evB ∈ getEventConflicts stAB 37800 41400 none := by
  constructor
  · decide
  · decide

/-- C2, amended: an event is returned exactly when it is stored, satisfies
the strict overlap test `start_time < end AND end_time > start`, and is
not excluded — where exclusion applies only when a *non-empty*
`exclude_id` equals the event's id (Python truthiness: passing the empty
string disables exclusion entirely).  Touching-only intervals are never
conflicts.  With A=[10:00,11:00) and B=[11:00,12:00) stored,
`conflicts(10:30, 11:30)` returns {A, B}, `conflicts(10:30, 11:00)`
returns exactly {A} (B only touches at 11:00), and
`conflicts(10:30, 12:30)` returns {A, B}. -/
theorem C2_conflicts :
    (∀ (s : CalendarState) (a b : Int) (ex : Option String) (e : CalendarEvent),
      e ∈ getEventConflicts s a b ex ↔
        e ∈ s.events ∧ excludedBy ex e.id = false ∧
          a < e.end_time ∧ b > e.start_time) ∧
    (∀ (s : CalendarState) (a b : Int) (x : String) (e : CalendarEvent),
      x ≠ "" → e.id = x → e ∉ getEventConflicts s a b (some x)) ∧
    (∀ (s : CalendarState) (a b : Int),
      getEventConflicts s a b (some "") = getEventConflicts s a b none) ∧
    (getEventConflicts stAB 37800 41400 none = [evA, evB] ∧
      getEventConflicts stAB 37800 39600 none = [evA] ∧
      getEventConflicts stAB 37800 45000 none = [evA, evB]) := by
  have hiff : ∀ (s : CalendarState) (a b : Int) (ex : Option String)
      (e : CalendarEvent),
      e ∈ getEventConflicts s a b ex ↔
        e ∈ s.events ∧ excludedBy ex e.id = false ∧
          a < e.end_time ∧ b > e.start_time := by
    intro s a b ex e
    unfold getEventConflicts
    rw [List.mem_filter]
    constructor
    · rintro ⟨hm, hp⟩
      by_cases hex : excludedBy ex e.id = true
      · rw [if_pos hex] at hp
        exact absurd hp (by simp)
      · rw [if_neg hex] at hp
        have hov := of_decide_eq_true hp
        exact ⟨hm, by simpa using hex, hov.1, hov.2⟩
    · rintro ⟨hm, hex, h1, h2⟩
      refine ⟨hm, ?_⟩
      rw [if_neg (by simp [hex])]
      exact decide_eq_true ⟨h1, h2⟩
  refine ⟨hiff, ?_, ?_, by decide, by decide, by decide⟩
  · intro s a b x e hx hid hmem
    have hfalse := ((hiff s a b (some x) e).mp hmem).2.1
    unfold excludedBy at hfalse
    rw [hid] at hfalse
    simp [hx] at hfalse
  · intro s a b
    unfold getEventConflicts
    apply List.filter_congr
    intro e _
    have h1 : excludedBy (some "") e.id = false := by
      unfold excludedBy
      simp
    have h2 : excludedBy none e.id = false := rfl
    rw [h1, h2]

/-- C2 witness: the exclusion half of `C2_conflicts` at a concrete
non-empty id — excluding A's own id removes A from its conflicts. -/
theorem C2_conflicts_witness :
    (("aaaa1111" : String) ≠ "" ∧ evA.id = "aaaa1111") ∧
    evA ∉ getEventConflicts stAB 37800 41400 (some "aaaa1111") :=
  ⟨⟨by decide, by decide⟩,
    C2_conflicts.2.1 stAB 37800 41400 "aaaa1111" evA (by decide) (by decide)⟩

/-! Claim C3 — free-slot discovery. -/

/-- One step of the cursor walk never moves the cursor backward: it goes
to `max(current_time, event.end_time)`. -/
theorem freeSlotStep_cursor_mono (dur : Int) (acc : List TimeSlot × Int)
    (e : CalendarEvent) : acc.2 ≤ (freeSlotStep dur acc e).2 :=
  le_max_left _ _

/-- Every slot accumulated by the walk is a genuine gap of at least the
requested duration, for arbitrary (also overlapping or out-of-order)
event lists. -/
theorem freeSlotWalk_slots_inv (dur : Int) (events : List CalendarEvent)
    (acc : List TimeSlot × Int)
    (hacc : ∀ t ∈ acc.1, t.start < t.stop ∧ dur ≤ deltaMinutes (t.stop - t.start)) :
    ∀ t ∈ (events.foldl (freeSlotStep dur) acc).1,
      t.start < t.stop ∧ dur ≤ deltaMinutes (t.stop - t.start) := by
  induction events generalizing acc with
  | nil => exact hacc
  | cons e rest ih =>
    rw [List.foldl_cons]
    apply ih
    intro t ht
    unfold freeSlotStep at ht
    dsimp only at ht
    split at ht
    · split at ht
      · rcases List.mem_append.mp ht with h | h
        · exact hacc t h
        · rw [List.mem_singleton] at h
          subst h
          constructor
          · assumption
          · assumption
      · exact hacc t ht
    · exact hacc t ht

/-- C3: the free-slot walk is correct.  (1) The cursor only ever moves
forward, for every event list and every starting cursor — overlapping or
out-of-order events cannot move it backward.  (2) Every emitted slot is a
real gap (`start < stop`) of at least `duration_minutes` (measured, as in
the source, by `timedelta.seconds // 60`).  (3) For a day holding the
single event [10:00, 11:00) and work hours [09:00, 18:00),
`get_free_time_slots(day, 30)` returns exactly [(09:00, 10:00),
(11:00, 18:00)], and with a 90-minute minimum the 60-minute slot
(09:00, 10:00) is excluded, leaving [(11:00, 18:00)].  (Times are seconds
of ordinal day 1: 09:00 = 32400, 10:00 = 36000, 11:00 = 39600,
18:00 = 64800.) -/
theorem C3_free_slots :
    (∀ (dur : Int) (events : List CalendarEvent) (acc : List TimeSlot × Int),
      acc.2 ≤ (events.foldl (freeSlotStep dur) acc).2) ∧
    (∀ (s : CalendarState) (ord dur : Int) (t : TimeSlot),
      t ∈ getFreeTimeSlots s ord dur →
        t.start < t.stop ∧ dur ≤ deltaMinutes (t.stop - t.start)) ∧
    (getFreeTimeSlots stA 1 30 = [⟨32400, 36000⟩, ⟨39600, 64800⟩] ∧
      getFreeTimeSlots stA 1 90 = [⟨39600, 64800⟩]) := by
  refine ⟨?_, ?_, by decide, by decide⟩
  · intro dur events
    induction events with
    | nil => exact fun _ => le_refl _
    | cons e rest ih =>
      intro acc
      rw [List.foldl_cons]
      exact le_trans (freeSlotStep_cursor_mono dur acc e) (ih _)
  · intro s ord dur t ht
    unfold getFreeTimeSlots at ht
    dsimp only at ht
    split at ht
    · split at ht
      · rcases List.mem_append.mp ht with h | h
        · exact freeSlotWalk_slots_inv dur _ _ (by intro t2 ht2; cases ht2) t h
        · rw [List.mem_singleton] at h
          subst h
          constructor
          · assumption
          · assumption
      · exact freeSlotWalk_slots_inv dur _ _ (by intro t2 ht2; cases ht2) t ht
    · exact freeSlotWalk_slots_inv dur _ _ (by intro t2 ht2; cases ht2) t ht

/-- C3 witness: the slot-quality half of `C3_free_slots` at the concrete
morning gap (09:00, 10:00) of the one-event day. -/
theorem C3_free_slots_witness :
    (⟨32400, 36000⟩ : TimeSlot) ∈ getFreeTimeSlots stA 1 30 ∧
    ((32400 : Int) < 36000 ∧ (30 : Int) ≤ deltaMinutes (36000 - 32400)) :=
  ⟨by decide, C3_free_slots.2.1 stA 1 30 ⟨32400, 36000⟩ (by decide)⟩

/-! Claim C9 — due reminders. -/

/-- C9: an event is returned by `get_events_needing_reminders` exactly
when it is stored and its reminder instant `start_time − reminder_minutes`
lies in the one-minute window ending at `now`:
`now − 1 minute ≤ start_time − reminder_minutes ≤ now`.  (The source
phrases the test as `reminder_time <= now <= reminder_time + 1 minute`,
which is the same window; minutes are 60 seconds here.) -/
theorem C9_due_reminders (s : CalendarState) (now : Int) (e : CalendarEvent) :
    e ∈ getEventsNeedingReminders s now ↔
      e ∈ s.events ∧
        now - 60 ≤ e.start_time - e.reminder_minutes * 60 ∧
        e.start_time - e.reminder_minutes * 60 ≤ now := by
  unfold getEventsNeedingReminders
  rw [List.mem_filter]
  constructor
  · rintro ⟨hm, hp⟩
    have hw := of_decide_eq_true hp
    exact ⟨hm, by omega, hw.1⟩
  · rintro ⟨hm, h1, h2⟩
    exact ⟨hm, decide_eq_true ⟨h2, by omega⟩⟩

/-! Claim C10 — search with the empty query. -/

/-- The empty string is a substring of every string, at index 0. -/
theorem strContains_empty (hay : String) : strContains hay "" = true := by
  unfold strContains
  rw [List.any_eq_true]
  refine ⟨0, List.mem_range.mpr (Nat.succ_pos _), ?_⟩
  rw [List.drop_zero, show ("" : String).data = [] by decide]
  generalize hay.data = l
  cases l <;> rfl

/-- C10: searching with the empty query keeps every stored event — the
empty string is a substring of every lowercased title, description and
location — so the result is exactly the whole store sorted by
`start_time` ascending: it is a permutation of the store, it is sorted,
and it equals the plain start-time sort of the store. -/
theorem C10_empty_search (s : CalendarState) :
    searchEvents s "" = sortByStart s.events ∧
      (searchEvents s "").Perm s.events ∧
      (searchEvents s "").Sorted startLe := by
  have hfilter : s.events.filter (fun event =>
      strContains (strLower event.title) (strLower "") ||
        strContains (strLower event.description) (strLower "") ||
        strContains (strLower event.location) (strLower "")) = s.events := by
    rw [List.filter_eq_self]
    intro e _
    rw [show strLower "" = "" by decide]
    rw [strContains_empty, strContains_empty, strContains_empty]
    rfl
  have heq : searchEvents s "" = sortByStart s.events := by
    unfold searchEvents
    dsimp only
    rw [hfilter]
  refine ⟨heq, ?_, ?_⟩
  · rw [heq]
    exact List.perm_insertionSort startLe s.events
  · rw [heq]
    exact List.sorted_insertionSort startLe s.events

/-! Claim C7 — serialization round-trip. -/

/-- Decimal digits serialize to digit characters. -/
theorem isDigit_digitChar (n : Nat) (h : n ≤ 9) : (digitChar n).isDigit = true := by
  interval_cases n <;> decide

/-- `digitVal` inverts `digitChar` on decimal digits. -/
theorem digitVal_digitChar (n : Nat) (h : n ≤ 9) : digitVal (digitChar n) = n := by
  interval_cases n <;> decide

/-- Recomposing the four digits of a year gives the year back. -/
theorem val4 (n : Nat) (h : n ≤ 9999) :
    digitVal (digitChar (n / 1000)) * 1000 + digitVal (digitChar (n / 100 % 10)) * 100 +
      digitVal (digitChar (n / 10 % 10)) * 10 + digitVal (digitChar (n % 10)) = n := by
  rw [digitVal_digitChar _ (by omega), digitVal_digitChar _ (by omega),
    digitVal_digitChar _ (by omega), digitVal_digitChar _ (by omega)]
  omega

/-- Recomposing the two digits of a zero-padded two-digit field. -/
theorem val2 (n : Nat) (h : n ≤ 99) :
    digitVal (digitChar (n / 10)) * 10 + digitVal (digitChar (n % 10)) = n := by
  rw [digitVal_digitChar _ (by omega), digitVal_digitChar _ (by omega)]
  omega

/-- Recomposing the six digits of a microsecond field. -/
theorem val6 (n : Nat) (h : n ≤ 999999) :
    digitVal (digitChar (n / 100000)) * 100000 +
      digitVal (digitChar (n / 10000 % 10)) * 10000 +
      digitVal (digitChar (n / 1000 % 10)) * 1000 +
      digitVal (digitChar (n / 100 % 10)) * 100 +
      digitVal (digitChar (n / 10 % 10)) * 10 + digitVal (digitChar (n % 10)) = n := by
  rw [digitVal_digitChar _ (by omega), digitVal_digitChar _ (by omega),
    digitVal_digitChar _ (by omega), digitVal_digitChar _ (by omega),
    digitVal_digitChar _ (by omega), digitVal_digitChar _ (by omega)]
  omega

/-- Every month has at most 31 days. -/
theorem daysInMonth_le_31 (y m : Nat) : daysInMonth y m ≤ 31 := by
  unfold daysInMonth
  split
  · split <;> omega
  · split <;> omega

/-- Parsing the formatted characters of a valid datetime without a
fractional part recovers the datetime. -/
theorem parseIsoChars_pads (y m d hh mi ss : Nat)
    (h : PyDateTime.okRanges y m d hh mi ss 0) :
    parseIsoChars (pad4 y ++ '-' :: pad2 m ++ '-' :: pad2 d ++ 'T' :: pad2 hh ++
      ':' :: pad2 mi ++ ':' :: pad2 ss) = some ⟨y, m, d, hh, mi, ss, 0⟩ := by
  obtain ⟨hy1, hy2, hm1, hm2, hd1, hd2, hh2, hmi2, hss2, -⟩ := h
  have hd31 : d ≤ 31 := le_trans hd2 (daysInMonth_le_31 y m)
  unfold pad4 pad2
  simp only [List.cons_append, List.nil_append]
  have hall : ([digitChar (y / 1000), digitChar (y / 100 % 10), digitChar (y / 10 % 10),
      digitChar (y % 10), digitChar (m / 10), digitChar (m % 10), digitChar (d / 10),
      digitChar (d % 10), digitChar (hh / 10), digitChar (hh % 10), digitChar (mi / 10),
      digitChar (mi % 10), digitChar (ss / 10), digitChar (ss % 10)].all
        Char.isDigit) = true := by
    rw [List.all_eq_true]
    intro c hc
    fin_cases hc <;> exact isDigit_digitChar _ (by omega)
  simp only [parseIsoChars]
  rw [hall]
  rw [if_pos rfl]
  rw [val4 y hy2, val2 m (by omega), val2 d (by omega), val2 hh (by omega),
    val2 mi (by omega), val2 ss (by omega)]
  unfold mkChecked
  rw [if_pos ⟨hy1, hy2, hm1, hm2, hd1, hd2, hh2, hmi2, hss2, by omega⟩]

/-- Parsing the formatted characters of a valid datetime with a 6-digit
fractional part recovers the datetime. -/
theorem parseIsoChars_pads_micro (y m d hh mi ss us : Nat)
    (h : PyDateTime.okRanges y m d hh mi ss us) :
    parseIsoChars (pad4 y ++ '-' :: pad2 m ++ '-' :: pad2 d ++ 'T' :: pad2 hh ++
      ':' :: pad2 mi ++ ':' :: (pad2 ss ++ '.' :: pad6 us)) =
      some ⟨y, m, d, hh, mi, ss, us⟩ := by
  obtain ⟨hy1, hy2, hm1, hm2, hd1, hd2, hh2, hmi2, hss2, hus⟩ := h
  have hd31 : d ≤ 31 := le_trans hd2 (daysInMonth_le_31 y m)
  unfold pad4 pad2 pad6
  simp only [List.cons_append, List.nil_append]
  have hall : ([digitChar (y / 1000), digitChar (y / 100 % 10), digitChar (y / 10 % 10),
      digitChar (y % 10), digitChar (m / 10), digitChar (m % 10), digitChar (d / 10),
      digitChar (d % 10), digitChar (hh / 10), digitChar (hh % 10), digitChar (mi / 10),
      digitChar (mi % 10), digitChar (ss / 10), digitChar (ss % 10)].all
        Char.isDigit) = true := by
    rw [List.all_eq_true]
    intro c hc
    fin_cases hc <;> exact isDigit_digitChar _ (by omega)
  have hall6 : ([digitChar (us / 100000), digitChar (us / 10000 % 10),
      digitChar (us / 1000 % 10), digitChar (us / 100 % 10), digitChar (us / 10 % 10),
      digitChar (us % 10)].all Char.isDigit) = true := by
    rw [List.all_eq_true]
    intro c hc
    fin_cases hc <;> exact isDigit_digitChar _ (by omega)
  simp only [parseIsoChars]
  rw [hall]
  rw [if_pos rfl]
  rw [hall6]
  rw [if_pos rfl]
  rw [val4 y hy2, val2 m (by omega), val2 d (by omega), val2 hh (by omega),
    val2 mi (by omega), val2 ss (by omega), val6 us hus]
  unfold mkChecked
  rw [if_pos ⟨hy1, hy2, hm1, hm2, hd1, hd2, hh2, hmi2, hss2, hus⟩]

/-- `fromisoformat` inverts `isoformat` on every valid datetime. -/
theorem fromisoformat_isoformat (t : PyDateTime) (h : t.valid) :
    fromisoformat t.isoformat = some t := by
  obtain ⟨y, m, d, hh, mi, ss, us⟩ := t
  have hok : PyDateTime.okRanges y m d hh mi ss us := h
  show parseIsoChars (pad4 y ++ '-' :: pad2 m ++ '-' :: pad2 d ++ 'T' :: pad2 hh ++
    ':' :: pad2 mi ++ ':' :: pad2 ss ++ (if us == 0 then [] else '.' :: pad6 us)) =
    some ⟨y, m, d, hh, mi, ss, us⟩
  by_cases hus : us = 0
  · subst hus
    have h00 : ((0 : Nat) == 0) = true := rfl
    rw [if_pos h00, List.append_nil]
    exact parseIsoChars_pads y m d hh mi ss hok
  · rw [if_neg (by simpa using hus)]
    exact parseIsoChars_pads_micro y m d hh mi ss us hok

/-- One record round-trips through its serialized dictionary. -/
theorem fromDict_toDict (e : EventRecord) (h1 : e.start_time.valid)
    (h2 : e.end_time.valid) (h3 : e.created_at.valid) :
    fromDict (toDict e) = some e := by
  unfold fromDict toDict
  dsimp only
  rw [fromisoformat_isoformat _ h1, fromisoformat_isoformat _ h2,
    fromisoformat_isoformat _ h3]

/-- C7: serializing every record of a collection to the backing format —
timestamps as ISO-8601 strings with no timezone suffix — and parsing the
result back yields records field-for-field identical to the originals,
timestamps included, for every collection of representable datetimes. -/
theorem C7_serialization_roundtrip (events : List EventRecord)
    (h : ∀ e ∈ events, e.start_time.valid ∧ e.end_time.valid ∧ e.created_at.valid) :
    loadFormat (saveFormat events) = some events := by
  induction events with
  | nil => rfl
  | cons e rest ih =>
    have he := h e (List.mem_cons_self _ _)
    have hd := fromDict_toDict e he.1 he.2.1 he.2.2
    unfold saveFormat loadFormat
    rw [List.map_cons, List.mapM_cons, hd]
    have hrest := ih (fun x hx => h x (List.mem_cons_of_mem _ hx))
    unfold saveFormat loadFormat at hrest
    rw [hrest]
    rfl

/-- Concrete event record for the C7 witness: the spec's "Standup"
scenario with a microsecond-bearing creation timestamp. -/
def recStandup : EventRecord :=
  ⟨"ev123456", "Standup", "", ⟨2024, 3, 4, 9, 0, 0, 0⟩, ⟨2024, 3, 4, 9, 15, 0, 0⟩,
    "", [], 15, false, "none", ⟨2024, 3, 1, 12, 0, 0, 123456⟩⟩

/-- C7 witness: `C7_serialization_roundtrip` on the one-record collection
holding `recStandup`. -/
theorem C7_serialization_roundtrip_witness :
    (∀ e ∈ [recStandup],
      e.start_time.valid ∧ e.end_time.valid ∧ e.created_at.valid) ∧
    loadFormat (saveFormat [recStandup]) = some [recStandup] :=
  ⟨by decide, C7_serialization_roundtrip [recStandup] (by decide)⟩

/-! Claim C8 — the month display grid. -/

/-- A cell's date is the ordinal it was built for. -/
theorem makeCell_date (A : List CalendarEvent) (y m t ord : Nat) :
    (makeCell A y m t ord).date = ord :=
  rfl

/-- A cell's today flag compares its ordinal with today's. -/
theorem makeCell_is_today (A : List CalendarEvent) (y m t ord : Nat) :
    (makeCell A y m t ord).is_today = (ord == t) :=
  rfl

/-- A cell's events are the pulled events filtered to the cell's date. -/
theorem makeCell_events (A : List CalendarEvent) (y m t ord : Nat) :
    (makeCell A y m t ord).events =
      A.filter (fun e => dateOrdinal e.start_time == (ord : Int)) :=
  rfl

/-- From year 2 on, at least a full year precedes January 1st. -/
theorem daysBeforeYear_ge_365 (y : Nat) (h : 2 ≤ y) : 365 ≤ daysBeforeYear y := by
  show 365 ≤ 365 * (y - 1) + (y - 1) / 4 - (y - 1) / 100 + (y - 1) / 400
  have key : (y - 1) / 100 ≤ (y - 1) / 4 :=
    Nat.div_le_div_left (by norm_num) (by norm_num)
  omega

/-- From year 2 on, the first of any month has ordinal at least 366. -/
theorem toOrdinal_first_ge (y m : Nat) (h : 2 ≤ y) : 366 ≤ toOrdinal y m 1 := by
  unfold toOrdinal
  have := daysBeforeYear_ge_365 y h
  omega

/-- Every cell of the 6-by-7 grid construction is a `makeCell` of some
ordinal. -/
theorem grid_cells_are_makeCell (A : List CalendarEvent) (year month today S : Nat)
    (c : CalendarCell)
    (hc : c ∈ ((List.range 6).map (fun w => (List.range 7).map (fun d =>
      makeCell A year month today (S + (7 * w + d))))).flatten) :
    ∃ ord, c = makeCell A year month today ord := by
  simp only [List.mem_flatten, List.mem_map, List.mem_range] at hc
  obtain ⟨row, ⟨w, hw, hrow⟩, hcrow⟩ := hc
  subst hrow
  simp only [List.mem_map, List.mem_range] at hcrow
  obtain ⟨d, hd, hcell⟩ := hcrow
  exact ⟨S + (7 * w + d), hcell.symm⟩

/-- The dates of the 42 grid cells, in order, are the 42 consecutive
ordinals from the grid start. -/
theorem grid_dates (A : List CalendarEvent) (year month today S : Nat) :
    ((List.range 6).map (fun w => (List.range 7).map (fun d =>
      makeCell A year month today (S + (7 * w + d))))).flatten.map (fun c => c.date) =
      (List.range 42).map (fun i => S + i) := by
  simp only [show List.range 6 = [0, 1, 2, 3, 4, 5] from rfl,
    show List.range 7 = [0, 1, 2, 3, 4, 5, 6] from rfl,
    show List.range 42 = [0, 1, 2, 3, 4, 5, 6, 7, 8, 9, 10, 11, 12, 13, 14, 15, 16,
      17, 18, 19, 20, 21, 22, 23, 24, 25, 26, 27, 28, 29, 30, 31, 32, 33, 34, 35,
      36, 37, 38, 39, 40, 41] from rfl,
    List.map_cons, List.map_nil, List.flatten_cons, List.flatten_nil,
    List.append_nil, List.cons_append, List.nil_append, makeCell_date,
    List.cons.injEq, and_true]

/-- C8: for a representable month (year at least 2 keeps the whole grid
after 0001-01-01, as Python's `date` arithmetic requires), the calendar
matrix is 6 weeks of 7 cells — 42 cells — whose dates are the 42
consecutive ordinals starting at the Sunday (weekday 6 in Python's
Monday=0 convention) on or before the 1st of the month; a cell is marked
`is_today` only if its date is today's; and every event listed in a cell
starts on that cell's date. -/
theorem C8_month_grid (s : CalendarState) (year month today : Nat)
    (hm1 : 1 ≤ month) (hm2 : month ≤ 12) (hy : 2 ≤ year) :
    ((getCalendarMatrix s year month today).length = 6 ∧
      ∀ w ∈ getCalendarMatrix s year month today, w.length = 7) ∧
    ((getCalendarMatrix s year month today).flatten.map (fun c => c.date) =
      (List.range 42).map (fun i =>
        toOrdinal year month 1 - ((toOrdinal year month 1 - 1) % 7 + 1) % 7 + i)) ∧
    ((toOrdinal year month 1 - ((toOrdinal year month 1 - 1) % 7 + 1) % 7 - 1) % 7 =
        6 ∧
      toOrdinal year month 1 - ((toOrdinal year month 1 - 1) % 7 + 1) % 7 ≤
        toOrdinal year month 1 ∧
      toOrdinal year month 1 <
        toOrdinal year month 1 - ((toOrdinal year month 1 - 1) % 7 + 1) % 7 + 7) ∧
    (∀ c ∈ (getCalendarMatrix s year month today).flatten,
      c.is_today = true → c.date = today) ∧
    (∀ c ∈ (getCalendarMatrix s year month today).flatten, ∀ e ∈ c.events,
      dateOrdinal e.start_time = (c.date : Int)) := by
  have hf : 366 ≤ toOrdinal year month 1 := toOrdinal_first_ge year month hy
  unfold getCalendarMatrix
  dsimp only
  refine ⟨⟨?_, ?_⟩, ?_, ?_, ?_, ?_⟩
  · simp
  · intro w hw
    simp only [List.mem_map, List.mem_range] at hw
    obtain ⟨i, hi, hwi⟩ := hw
    subst hwi
    simp
  · exact grid_dates _ year month today _
  · omega
  · intro c hc htd
    obtain ⟨ord, rfl⟩ := grid_cells_are_makeCell _ year month today _ c hc
    rw [makeCell_date]
    rw [makeCell_is_today] at htd
    simpa using htd
  · intro c hc e he
    obtain ⟨ord, rfl⟩ := grid_cells_are_makeCell _ year month today _ c hc
    rw [makeCell_events] at he
    rw [makeCell_date]
    have := (List.mem_filter.mp he).2
    exact of_decide_eq_true this

/-- C8 witness: `C8_month_grid` for March 2024 over the A/B store, with
today 2024-03-04 (ordinal 738949); the grid facts are extracted for the
concrete instance. -/
theorem C8_month_grid_witness :
    ((1 ≤ 3 ∧ 3 ≤ 12 ∧ 2 ≤ 2024) ∧
      (getCalendarMatrix stAB 2024 3 738949).length = 6) ∧
    ((getCalendarMatrix stAB 2024 3 738949).flatten.map (fun c => c.date) =
      (List.range 42).map (fun i =>
        toOrdinal 2024 3 1 - ((toOrdinal 2024 3 1 - 1) % 7 + 1) % 7 + i)) :=
  ⟨⟨⟨by decide, by decide, by decide⟩,
      (C8_month_grid stAB 2024 3 738949 (by decide) (by decide) (by decide)).1.1⟩,
    (C8_month_grid stAB 2024 3 738949 (by decide) (by decide) (by decide)).2.1⟩

end Jarvis
